import Mathlib

/-!
# Verification of the e-commerce shipping-address and user-profile controllers

Shallow embedding of the Express/Sequelize controllers:
* `createShippingAddress`, `getShippingAddressesByUserId`, `deleteShippingAddress`,
  `updateShippingAddress`, `setDefaultAddress`, `bulkDeleteAddresses`
  (shipping-address controller), and
* `updateUserProfile` (user controller).

The database is modelled as explicit lists of rows; each handler is a pure
function from the request and the current database to an outcome (the HTTP
response) and the resulting database.  JavaScript truthiness tests on request
fields (`if (!x) ...`) are modelled by explicit `truthy` helpers, `parseInt`
results by `Option Int` (with `none` standing for `NaN`), and `Date` values by
a `now : Nat` parameter.  The password-hashing collaborator (bcrypt) is a
function parameter of the profile-update operation.
-/

/-- A row of the `shipping_addresses` table. -/
structure Address where
  id : Nat
  usuario_id : Nat
  direccion : String
  ciudad : String
  estado_provincia : String
  codigo_postal : String
  pais : String
  is_default : Bool
  created_at : Nat
  updated_at : Nat
deriving Repr, DecidableEq

/-- A row of the `users` table. -/
structure UserRec where
  id : Nat
  firstName : String
  lastName_father : String
  lastName_mother : String
  nombre : String
  email : String
  hashed_password : String
deriving Repr, DecidableEq

/-- The relational store the controllers operate on. -/
structure DB where
  users : List UserRec
  addresses : List Address
deriving Repr, DecidableEq

/-- JavaScript truthiness of an optional string request field
(`undefined` and `""` are falsy). -/
def truthyStr : Option String → Bool
  | none => false
  | some s => s ≠ ""

/-- JavaScript truthiness of an optional numeric request field
(`undefined` and `0` are falsy). -/
def truthyNat : Option Nat → Bool
  | none => false
  | some n => n ≠ 0

/-- `x || d` on a `parseInt` result: `NaN` (here `none`) and `0` fall back to
the default `d`. -/
def jsOrInt (x : Option Int) (d : Int) : Int :=
  match x with
  | none => d
  | some v => if v = 0 then d else v

/-- `String.prototype.trim`: strip leading and trailing whitespace.
(Defined over the character list so that it evaluates by kernel reduction.) -/
def jsTrim (s : String) : String :=
  ⟨((s.data.dropWhile Char.isWhitespace).reverse.dropWhile Char.isWhitespace).reverse⟩

/-- `User.findByPk` : primary-key lookup in the `users` table. -/
def findUser (db : DB) (uid : Nat) : Option UserRec :=
  db.users.find? (fun u => u.id == uid)

/-- `ShippingAddress.findByPk` : primary-key lookup in `shipping_addresses`. -/
def findAddress (db : DB) (aid : Nat) : Option Address :=
  db.addresses.find? (fun a => a.id == aid)

/-- `ShippingAddress.findByPk` with `include: [{model: User, required: true}]`:
the row is returned only when the joined owner row exists. -/
def findAddressWithUser (db : DB) (aid : Nat) : Option (Address × UserRec) := do
  let a ← findAddress db aid
  let u ← findUser db a.usuario_id
  pure (a, u)

/-- `ShippingAddress.count({where: {usuario_id}})`. -/
def countAddresses (db : DB) (uid : Nat) : Nat :=
  (db.addresses.filter (fun a => a.usuario_id == uid)).length

/-- The regular expression `^\d{5}(-\d{4})?$` from the controllers, as a
decidable test on the (already trimmed) string. -/
def postalCodeRegexTest (s : String) : Bool :=
  let cs := s.data
  (cs.length == 5 && cs.all (fun c => c.isDigit)) ||
    (cs.length == 10 && (cs.take 5).all (fun c => c.isDigit) &&
      cs.get? 5 == some '-' && (cs.drop 6).all (fun c => c.isDigit))

/-- Request body of `createShippingAddress`. -/
structure CreateBody where
  usuario_id : Option Nat
  direccion : Option String
  ciudad : Option String
  estado_provincia : Option String
  codigo_postal : Option String
  pais : Option String
deriving Repr, DecidableEq

/-- Outcomes of `createShippingAddress`, one constructor per `return`. -/
inductive CreateOutcome where
  | missingFields
  | userNotFound
  | limitReached (currentCount : Nat)
  | invalidPostalCode
  | created (data : Address)
deriving Repr, DecidableEq

/-- HTTP status code attached to each `CreateOutcome`. -/
def CreateOutcome.status : CreateOutcome → Nat
  | .missingFields => 400
  | .userNotFound => 404
  | .limitReached _ => 400
  | .invalidPostalCode => 400
  | .created _ => 201

/-- The `createShippingAddress` handler (full-validation variant): field
presence check, owner existence check, ≥5-address limit check, postal-code
format check, then insertion of the trimmed row with both timestamps set to
`now` and surrogate key `newId`. -/
def createShippingAddress (db : DB) (now newId : Nat) (b : CreateBody) :
    CreateOutcome × DB :=
  if !(truthyNat b.usuario_id && truthyStr b.direccion && truthyStr b.ciudad &&
      truthyStr b.estado_provincia && truthyStr b.codigo_postal && truthyStr b.pais) then
    (.missingFields, db)
  else
    let uid := b.usuario_id.getD 0
    match findUser db uid with
    | none => (.userNotFound, db)
    | some _ =>
      let userAddressCount := countAddresses db uid
      if userAddressCount ≥ 5 then
        (.limitReached userAddressCount, db)
      else if !postalCodeRegexTest (jsTrim (b.codigo_postal.getD "")) then
        (.invalidPostalCode, db)
      else
        let newAddr : Address :=
          { id := newId
            usuario_id := uid
            direccion := jsTrim (b.direccion.getD "")
            ciudad := jsTrim (b.ciudad.getD "")
            estado_provincia := jsTrim (b.estado_provincia.getD "")
            codigo_postal := jsTrim (b.codigo_postal.getD "")
            pais := jsTrim (b.pais.getD "")
            is_default := false
            created_at := now
            updated_at := now }
        (.created newAddr, { db with addresses := db.addresses ++ [newAddr] })

/-- Effective page number: `Math.max(1, parseInt(req.query.page) || 1)`. -/
def effPage (p : Option Int) : Nat :=
  (max 1 (jsOrInt p 1)).toNat

/-- Effective page size: `Math.min(50, Math.max(1, parseInt(req.query.limit) || 10))`. -/
def effLimit (l : Option Int) : Nat :=
  (min 50 (max 1 (jsOrInt l 10))).toNat

/-- Insertion of an address into a list ordered by `created_at` descending. -/
def insertByCreatedDesc (a : Address) : List Address → List Address
  | [] => [a]
  | b :: bs =>
    if b.created_at ≤ a.created_at then a :: b :: bs
    else b :: insertByCreatedDesc a bs

/-- `ORDER BY created_at DESC`, modelled as an insertion sort. -/
def sortByCreatedDesc : List Address → List Address
  | [] => []
  | a :: as => insertByCreatedDesc a (sortByCreatedDesc as)

/-- Pagination metadata of a list response. -/
structure Pagination where
  currentPage : Nat
  totalPages : Nat
  totalItems : Nat
  itemsPerPage : Nat
deriving Repr, DecidableEq

/-- Successful payload of `getShippingAddressesByUserId`. -/
structure ListData where
  userId : Nat
  userName : String
  addresses : List Address
  pagination : Pagination
deriving Repr, DecidableEq

/-- Outcomes of `getShippingAddressesByUserId`. -/
inductive ListOutcome where
  | missingUserId
  | userNotFound
  | noAddresses
  | ok (data : ListData)
deriving Repr, DecidableEq

/-- HTTP status code attached to each `ListOutcome`. -/
def ListOutcome.status : ListOutcome → Nat
  | .missingUserId => 400
  | .userNotFound => 404
  | .noAddresses => 404
  | .ok _ => 200

/-- The `getShippingAddressesByUserId` handler (full-validation variant):
user-id presence check, owner existence check, clamped pagination, one
`findAndCountAll` (total count plus the requested page of rows ordered by
`created_at DESC`), a 404 when the count is zero, else the page with
pagination metadata where `totalPages = Math.ceil(count / limit)`. -/
def getShippingAddressesByUserId (db : DB) (usuarioId : Option Nat)
    (pageQ limitQ : Option Int) : ListOutcome :=
  match usuarioId with
  | none => .missingUserId
  | some uid =>
    match findUser db uid with
    | none => .userNotFound
    | some u =>
      let page := effPage pageQ
      let limit := effLimit limitQ
      let offset := (page - 1) * limit
      let allRows := sortByCreatedDesc (db.addresses.filter (fun a => a.usuario_id == uid))
      let count := allRows.length
      let rows := (allRows.drop offset).take limit
      if count == 0 then
        .noAddresses
      else
        .ok { userId := u.id
              userName := u.firstName
              addresses := rows
              pagination :=
                { currentPage := page
                  totalPages := (count + limit - 1) / limit
                  totalItems := count
                  itemsPerPage := limit } }

/-- Outcomes of `deleteShippingAddress`. -/
inductive DeleteOutcome where
  | missingId
  | notFound
  | forbidden
  | ok (deletedId : Nat) (ownerId : Nat) (deletedBy : Nat) (byAdmin : Bool)
deriving Repr, DecidableEq

/-- HTTP status code attached to each `DeleteOutcome`. -/
def DeleteOutcome.status : DeleteOutcome → Nat
  | .missingId => 400
  | .notFound => 404
  | .forbidden => 403
  | .ok _ _ _ _ => 200

/-- The `deleteShippingAddress` handler: id presence check, joined lookup,
ownership-or-admin check, then transactional `destroy` of the row. -/
def deleteShippingAddress (db : DB) (addrId : Option Nat)
    (callerId : Nat) (isAdmin : Bool) : DeleteOutcome × DB :=
  match addrId with
  | none => (.missingId, db)
  | some aid =>
    match findAddressWithUser db aid with
    | none => (.notFound, db)
    | some (a, _) =>
      if a.usuario_id != callerId && !isAdmin then
        (.forbidden, db)
      else
        (.ok aid a.usuario_id callerId isAdmin,
         { db with addresses := db.addresses.filter (fun x => x.id != aid) })

/-- Request body of `updateShippingAddress` (any subset of address fields). -/
structure UpdateBody where
  direccion : Option String
  ciudad : Option String
  estado_provincia : Option String
  codigo_postal : Option String
  pais : Option String
deriving Repr, DecidableEq

/-- Outcomes of `updateShippingAddress`. -/
inductive UpdateOutcome where
  | missingId
  | notFound
  | forbidden
  | invalidPostalCode
  | ok (data : Address)
deriving Repr, DecidableEq

/-- HTTP status code attached to each `UpdateOutcome`. -/
def UpdateOutcome.status : UpdateOutcome → Nat
  | .missingId => 400
  | .notFound => 404
  | .forbidden => 403
  | .invalidPostalCode => 400
  | .ok _ => 200

/-- `if (field) updates.field = field.trim()`: a truthy (present, non-empty)
value overwrites the stored one trimmed; otherwise the stored value stays. -/
def applyField (old : String) (v : Option String) : String :=
  match v with
  | none => old
  | some s => if s = "" then old else jsTrim s

/-- The update object built by `updateShippingAddress`: `updated_at` is always
refreshed to `now`; each truthy body field overwrites the stored one trimmed. -/
def applyUpdates (a : Address) (b : UpdateBody) (now : Nat) : Address :=
  { a with
    direccion := applyField a.direccion b.direccion
    ciudad := applyField a.ciudad b.ciudad
    estado_provincia := applyField a.estado_provincia b.estado_provincia
    codigo_postal := applyField a.codigo_postal b.codigo_postal
    pais := applyField a.pais b.pais
    updated_at := now }

/-- The `updateShippingAddress` handler: id presence check, joined lookup,
ownership-or-admin check, postal-code re-validation when supplied, then a
transactional update of the supplied fields and refresh of `updated_at`. -/
def updateShippingAddress (db : DB) (now : Nat) (addrId : Option Nat)
    (callerId : Nat) (isAdmin : Bool) (b : UpdateBody) : UpdateOutcome × DB :=
  match addrId with
  | none => (.missingId, db)
  | some aid =>
    match findAddressWithUser db aid with
    | none => (.notFound, db)
    | some (a, _) =>
      if a.usuario_id != callerId && !isAdmin then
        (.forbidden, db)
      else if truthyStr b.codigo_postal &&
          !postalCodeRegexTest (jsTrim (b.codigo_postal.getD "")) then
        (.invalidPostalCode, db)
      else
        let updated := applyUpdates a b now
        (.ok updated,
         { db with addresses := db.addresses.map (fun x => if x.id == aid then updated else x) })

/-- First UPDATE statement of `setDefaultAddress`: clear `is_default` on a
row when its `usuario_id` matches the given owner. -/
def clearDefaults (ownerId : Nat) (x : Address) : Address :=
  if x.usuario_id == ownerId then { x with is_default := false } else x

/-- Second UPDATE statement of `setDefaultAddress`: set `is_default` on a row
when its `id` matches the given address id. -/
def setDefaultFlag (addrId : Nat) (x : Address) : Address :=
  if x.id == addrId then { x with is_default := true } else x

/-- The `setDefaultAddress` handler: inside one transaction, clear
`is_default` on every address whose `usuario_id` matches, then set
`is_default` on the address whose `id` matches.  No ownership validation. -/
def setDefaultAddress (db : DB) (addrId : Nat) (ownerId : Nat) : DB :=
  { db with addresses :=
      ((db.addresses.map (clearDefaults ownerId)).map (setDefaultFlag addrId)) }

/-- Response payload of `bulkDeleteAddresses`. -/
structure BulkDeleteData where
  deletedCount : Nat
deriving Repr, DecidableEq

/-- The `bulkDeleteAddresses` handler: transactional `destroy` of the rows
whose `id` is in `addressIds` and whose `usuario_id` is the caller; the
response reports `addressIds.length` as `deletedCount`. -/
def bulkDeleteAddresses (db : DB) (callerId : Nat) (addressIds : List Nat) :
    BulkDeleteData × DB :=
  ({ deletedCount := addressIds.length },
   { db with addresses := (db.addresses.filter
       (fun a => !(addressIds.contains a.id && a.usuario_id == callerId))) })

/-- Request body of `updateUserProfile`. -/
structure ProfileBody where
  nombre : Option String
  email : Option String
  password : Option String
deriving Repr, DecidableEq

/-- Outcomes of `updateUserProfile`. -/
inductive ProfileOutcome where
  | userNotFound
  | ok (data : UserRec)
deriving Repr, DecidableEq

/-- HTTP status code attached to each `ProfileOutcome`. -/
def ProfileOutcome.status : ProfileOutcome → Nat
  | .userNotFound => 404
  | .ok _ => 200

/-- The truthy-field overwrite step of `updateUserProfile`: overwrite
`nombre` and `email` when supplied, and, when a password is supplied, store
`bcryptHash password salt` in `hashed_password` (the bcrypt collaborator is
the parameter `bcryptHash`, the generated salt the parameter `salt`). -/
def applyProfile (bcryptHash : String → String → String) (salt : String)
    (u : UserRec) (b : ProfileBody) : UserRec :=
  let u1 := match b.nombre with
    | some s => if s ≠ "" then { u with nombre := s } else u
    | none => u
  let u2 := match b.email with
    | some s => if s ≠ "" then { u1 with email := s } else u1
    | none => u1
  match b.password with
  | some s => if s ≠ "" then { u2 with hashed_password := bcryptHash s salt } else u2
  | none => u2

/-- The `updateUserProfile` handler: primary-key lookup, then the
`applyProfile` overwrite step, then `user.save()` persisting the row. -/
def updateUserProfile (bcryptHash : String → String → String) (salt : String)
    (db : DB) (uid : Nat) (b : ProfileBody) : ProfileOutcome × DB :=
  match findUser db uid with
  | none => (.userNotFound, db)
  | some u =>
    let u3 := applyProfile bcryptHash salt u b
    (.ok u3, { db with users := db.users.map (fun x => if x.id == uid then u3 else x) })

/-! ## Concrete sample data -/

/-- A sample user row. -/
def sUser : UserRec :=
  { id := 1, firstName := "Ana", lastName_father := "Lopez",
    lastName_mother := "Diaz", nombre := "Ana", email := "ana@example.com",
    hashed_password := "h0" }

/-- A sample address row. -/
def sAddr (i uid : Nat) (d : Bool) : Address :=
  { id := i, usuario_id := uid, direccion := "Calle 1", ciudad := "Lima",
    estado_provincia := "LM", codigo_postal := "12345", pais := "Peru",
    is_default := d, created_at := i, updated_at := i }

/-- A store where user 1 owns addresses 10 and 11. -/
def sDB : DB := { users := [sUser], addresses := [sAddr 10 1 false, sAddr 11 1 true] }

/-- A store where user 1 owns four addresses. -/
def sDB4 : DB :=
  { users := [sUser]
    addresses := [sAddr 10 1 false, sAddr 11 1 false, sAddr 12 1 false, sAddr 13 1 false] }

/-- A store where user 1 owns five addresses. -/
def sDB5 : DB :=
  { users := [sUser]
    addresses := [sAddr 10 1 false, sAddr 11 1 false, sAddr 12 1 false,
      sAddr 13 1 false, sAddr 14 1 false] }

/-- A store where user 1 exists but owns no address. -/
def sDB0 : DB := { users := [sUser], addresses := [] }

/-- A sample valid create request body. -/
def sBody : CreateBody :=
  { usuario_id := some 1, direccion := some " Calle 2 ", ciudad := some "Lima",
    estado_provincia := some "LM", codigo_postal := some "12345", pais := some "Peru" }

/-- A sample partial update body supplying only the street field. -/
def sUBody : UpdateBody :=
  { direccion := some " Calle 3 ", ciudad := none, estado_provincia := none,
    codigo_postal := none, pais := none }

/-- A sample update body supplying only a postal code. -/
def sPCBody : UpdateBody :=
  { direccion := none, ciudad := none, estado_provincia := none,
    codigo_postal := some "99999", pais := none }

/-- A sample profile update supplying only a password. -/
def sPBody : ProfileBody := { nombre := none, email := none, password := some "secret" }

/-- A stand-in for the bcrypt collaborator used in concrete instantiations. -/
def sHash (pw salt : String) : String := String.append (String.append salt ":") pw

/-! ## Auxiliary lemmas -/

theorem insertByCreatedDesc_length (a : Address) (l : List Address) :
    (insertByCreatedDesc a l).length = l.length + 1 := by
  induction l with
  | nil => rfl
  | cons b bs ih =>
    simp only [insertByCreatedDesc]
    split <;> simp [ih]

theorem sortByCreatedDesc_length (l : List Address) :
    (sortByCreatedDesc l).length = l.length := by
  induction l with
  | nil => rfl
  | cons a as ih => simp [sortByCreatedDesc, insertByCreatedDesc_length, ih]

/-! ## Claims -/

/-- **C4.** `BulkDelete(addressIds, callerId)` deletes exactly those addresses
whose id is in `addressIds` and whose owner equals `callerId` (ids not owned
by the caller are silently ignored and their rows remain), and the returned
`deletedCount` equals the number of ids requested. -/
theorem bulkDelete_removes_exactly_owned_requested (db : DB) (callerId : Nat)
    (addressIds : List Nat) :
    (bulkDeleteAddresses db callerId addressIds).1.deletedCount = addressIds.length ∧
    (∀ a : Address, a ∈ (bulkDeleteAddresses db callerId addressIds).2.addresses ↔
      (a ∈ db.addresses ∧ ¬(a.id ∈ addressIds ∧ a.usuario_id = callerId))) ∧
    (bulkDeleteAddresses db callerId addressIds).2.users = db.users := by
  refine ⟨rfl, fun a => ?_, rfl⟩
  simp [bulkDeleteAddresses, List.mem_filter]
  tauto

/-- **C5.** Update and Delete by a caller who is neither the owner nor an
admin return the forbidden outcome (HTTP 403) and leave the database — in
particular the target address record — exactly as it was. -/
theorem update_delete_forbidden_unchanged (db : DB) (now aid callerId : Nat)
    (isAdmin : Bool) (b : UpdateBody) (a : Address) (u : UserRec)
    (hfind : findAddressWithUser db aid = some (a, u))
    (hown : a.usuario_id ≠ callerId) (hadm : isAdmin = false) :
    updateShippingAddress db now (some aid) callerId isAdmin b = (.forbidden, db) ∧
    UpdateOutcome.status (updateShippingAddress db now (some aid) callerId isAdmin b).1 = 403 ∧
    deleteShippingAddress db (some aid) callerId isAdmin = (.forbidden, db) ∧
    DeleteOutcome.status (deleteShippingAddress db (some aid) callerId isAdmin).1 = 403 := by
  subst hadm
  simp [updateShippingAddress, deleteShippingAddress, hfind, hown,
    UpdateOutcome.status, DeleteOutcome.status]

/-- **C6.** An authorized partial Update changes only the supplied fields:
every field absent from the request keeps its prior value (including the
postal code), every supplied non-empty text field is stored trimmed, and the
updated timestamp is refreshed; the updated row replaces the old one in the
store. -/
theorem update_applies_only_supplied_fields (db : DB) (now aid callerId : Nat)
    (isAdmin : Bool) (b : UpdateBody) (a : Address) (u : UserRec)
    (hfind : findAddressWithUser db aid = some (a, u))
    (hauth : a.usuario_id = callerId ∨ isAdmin = true)
    (hpc : ∀ s, b.codigo_postal = some s → s ≠ "" → postalCodeRegexTest (jsTrim s) = true) :
    ∃ r, updateShippingAddress db now (some aid) callerId isAdmin b =
        (.ok r, { db with addresses := (db.addresses.map
          (fun x => if x.id == aid then r else x)) }) ∧
      r.updated_at = now ∧ r.id = a.id ∧ r.usuario_id = a.usuario_id ∧
      r.is_default = a.is_default ∧ r.created_at = a.created_at ∧
      (b.direccion = none → r.direccion = a.direccion) ∧
      (∀ s, b.direccion = some s → s ≠ "" → r.direccion = jsTrim s) ∧
      (b.ciudad = none → r.ciudad = a.ciudad) ∧
      (∀ s, b.ciudad = some s → s ≠ "" → r.ciudad = jsTrim s) ∧
      (b.estado_provincia = none → r.estado_provincia = a.estado_provincia) ∧
      (∀ s, b.estado_provincia = some s → s ≠ "" → r.estado_provincia = jsTrim s) ∧
      (b.codigo_postal = none → r.codigo_postal = a.codigo_postal) ∧
      (∀ s, b.codigo_postal = some s → s ≠ "" → r.codigo_postal = jsTrim s) ∧
      (b.pais = none → r.pais = a.pais) ∧
      (∀ s, b.pais = some s → s ≠ "" → r.pais = jsTrim s) := by
  have hown : (a.usuario_id != callerId && !isAdmin) = false := by
    rcases hauth with h | h <;> simp [h]
  have hpost : (truthyStr b.codigo_postal &&
      !postalCodeRegexTest (jsTrim (b.codigo_postal.getD ""))) = false := by
    cases hc : b.codigo_postal with
    | none => simp [truthyStr]
    | some s =>
      by_cases hs : s = ""
      · simp [truthyStr, hs]
      · simp [truthyStr, hs, hpc s hc hs]
  refine ⟨applyUpdates a b now, ?_, rfl, rfl, rfl, rfl, rfl, ?_, ?_, ?_, ?_, ?_, ?_, ?_, ?_, ?_, ?_⟩
  · simp [updateShippingAddress, hfind, hown, hpost]
  all_goals
    first
    | (intro h; simp [applyUpdates, applyField, h])
    | (intro s hs hne; simp [applyUpdates, applyField, hs, hne])

/-- **C2.** For a valid create request (all six fields truthy, postal code
well-formed) by an existing user: when the owner currently has at most 4
addresses the handler returns 201 and appends exactly the new trimmed row
(so the 5th address succeeds), and when the owner already has 5 or more it
returns the 400 limit outcome and inserts nothing (so the 6th is rejected). -/
theorem create_fifth_succeeds_sixth_rejected (db : DB) (now newId : Nat)
    (b : CreateBody) (u : UserRec)
    (hf1 : truthyNat b.usuario_id = true) (hf2 : truthyStr b.direccion = true)
    (hf3 : truthyStr b.ciudad = true) (hf4 : truthyStr b.estado_provincia = true)
    (hf5 : truthyStr b.codigo_postal = true) (hf6 : truthyStr b.pais = true)
    (huser : findUser db (b.usuario_id.getD 0) = some u)
    (hpc : postalCodeRegexTest (jsTrim (b.codigo_postal.getD "")) = true) :
    (countAddresses db (b.usuario_id.getD 0) ≤ 4 →
      ∃ r, createShippingAddress db now newId b =
          (.created r, { db with addresses := db.addresses ++ [r] }) ∧
        r.usuario_id = b.usuario_id.getD 0 ∧
        CreateOutcome.status (createShippingAddress db now newId b).1 = 201 ∧
        countAddresses (createShippingAddress db now newId b).2 (b.usuario_id.getD 0) =
          countAddresses db (b.usuario_id.getD 0) + 1) ∧
    (countAddresses db (b.usuario_id.getD 0) ≥ 5 →
      createShippingAddress db now newId b =
        (.limitReached (countAddresses db (b.usuario_id.getD 0)), db) ∧
      CreateOutcome.status (createShippingAddress db now newId b).1 = 400) := by
  constructor
  · intro hle
    have hlt : ¬ countAddresses db (b.usuario_id.getD 0) ≥ 5 := by omega
    refine ⟨{ id := newId
              usuario_id := b.usuario_id.getD 0
              direccion := jsTrim (b.direccion.getD "")
              ciudad := jsTrim (b.ciudad.getD "")
              estado_provincia := jsTrim (b.estado_provincia.getD "")
              codigo_postal := jsTrim (b.codigo_postal.getD "")
              pais := jsTrim (b.pais.getD "")
              is_default := false
              created_at := now
              updated_at := now }, ?_, rfl, ?_, ?_⟩
    · simp [createShippingAddress, hf1, hf2, hf3, hf4, hf5, hf6, huser, hlt, hpc]
    · simp [createShippingAddress, hf1, hf2, hf3, hf4, hf5, hf6, huser, hlt, hpc,
        CreateOutcome.status]
    · have hlt2 : ¬ 5 ≤ (db.addresses.filter
          (fun a => a.usuario_id == b.usuario_id.getD 0)).length := by
        simpa [countAddresses] using hlt
      simp [createShippingAddress, hf1, hf2, hf3, hf4, hf5, hf6, huser, hlt2, hpc,
        countAddresses, List.filter_append]
  · intro hge
    constructor
    · simp [createShippingAddress, hf1, hf2, hf3, hf4, hf5, hf6, huser, hge]
    · simp [createShippingAddress, hf1, hf2, hf3, hf4, hf5, hf6, huser, hge,
        CreateOutcome.status]

/-- **C3.** For an existing user owning zero shipping addresses, ListByUser
answers with the not-found outcome (HTTP 404), never a 200 payload. -/
theorem listByUser_zero_addresses_404 (db : DB) (uid : Nat) (u : UserRec)
    (pageQ limitQ : Option Int)
    (huser : findUser db uid = some u)
    (hcount : countAddresses db uid = 0) :
    getShippingAddressesByUserId db (some uid) pageQ limitQ = .noAddresses ∧
    ListOutcome.status (getShippingAddressesByUserId db (some uid) pageQ limitQ) = 404 ∧
    ∀ d : ListData, getShippingAddressesByUserId db (some uid) pageQ limitQ ≠ .ok d := by
  have hlen : (sortByCreatedDesc
      (db.addresses.filter (fun a => a.usuario_id == uid))).length = 0 := by
    rw [sortByCreatedDesc_length]; exact hcount
  refine ⟨?_, ?_, ?_⟩ <;>
    simp [getShippingAddressesByUserId, huser, hlen, ListOutcome.status]

/-- **C10.** For an existing user owning at least one address, ListByUser
answers 200 for every requested page — even past the last page, where the
address page is empty while the pagination metadata still reports the full
totals; the 404 branch depends only on the total count being zero. -/
theorem listByUser_nonzero_always_200 (db : DB) (uid : Nat) (u : UserRec)
    (pageQ limitQ : Option Int)
    (huser : findUser db uid = some u)
    (hcount : countAddresses db uid ≠ 0) :
    ∃ d, getShippingAddressesByUserId db (some uid) pageQ limitQ = .ok d ∧
      ListOutcome.status (getShippingAddressesByUserId db (some uid) pageQ limitQ) = 200 ∧
      d.pagination.totalItems = countAddresses db uid ∧
      d.pagination.itemsPerPage = effLimit limitQ ∧
      d.pagination.currentPage = effPage pageQ ∧
      d.pagination.totalPages =
        (countAddresses db uid + effLimit limitQ - 1) / effLimit limitQ ∧
      (countAddresses db uid ≤ (effPage pageQ - 1) * effLimit limitQ →
        d.addresses = []) := by
  have hlen : (sortByCreatedDesc
      (db.addresses.filter (fun a => a.usuario_id == uid))).length =
      countAddresses db uid := by
    rw [sortByCreatedDesc_length]; rfl
  refine ⟨{ userId := u.id
            userName := u.firstName
            addresses := ((sortByCreatedDesc
                (db.addresses.filter (fun a => a.usuario_id == uid))).drop
                ((effPage pageQ - 1) * effLimit limitQ)).take (effLimit limitQ)
            pagination :=
              { currentPage := effPage pageQ
                totalPages :=
                  (countAddresses db uid + effLimit limitQ - 1) / effLimit limitQ
                totalItems := countAddresses db uid
                itemsPerPage := effLimit limitQ } }, ?_, ?_, rfl, rfl, rfl, rfl, ?_⟩
  · simp [getShippingAddressesByUserId, huser, hlen, hcount]
  · simp [getShippingAddressesByUserId, huser, hlen, hcount, ListOutcome.status]
  · intro hpast
    have : (sortByCreatedDesc
        (db.addresses.filter (fun a => a.usuario_id == uid))).drop
        ((effPage pageQ - 1) * effLimit limitQ) = [] :=
      List.drop_eq_nil_of_le (by rw [hlen]; exact hpast)
    simp [this]

/-- **C8.** The effective page is `max(1, page or 1)` — any page below 1
becomes 1, absent defaults to 1 — and the effective limit is clamped into
`[1, 50]` — any limit above 50 becomes 50, absent defaults to 10; the
pagination metadata of a list response satisfies
`totalPages = ceil(totalItems / itemsPerPage)`, stated both as the
`(n + d - 1) / d` computation and by the Galois characterization of the
ceiling of the division. -/
theorem pagination_clamping_and_ceiling (p l : Int) (hp : p < 1) (hl : 50 < l)
    (db : DB) (uid : Nat) (u : UserRec) (pageQ limitQ : Option Int)
    (huser : findUser db uid = some u)
    (hcount : countAddresses db uid ≠ 0) :
    effPage (some p) = 1 ∧ effLimit (some l) = 50 ∧
    effPage none = 1 ∧ effLimit none = 10 ∧
    1 ≤ effLimit limitQ ∧ effLimit limitQ ≤ 50 ∧ 1 ≤ effPage pageQ ∧
    ∃ d, getShippingAddressesByUserId db (some uid) pageQ limitQ = .ok d ∧
      d.pagination.totalPages =
        (d.pagination.totalItems + d.pagination.itemsPerPage - 1) /
          d.pagination.itemsPerPage ∧
      ∀ m : Nat, d.pagination.totalPages ≤ m ↔
        d.pagination.totalItems ≤ d.pagination.itemsPerPage * m := by
  have hlim1 : 1 ≤ effLimit limitQ := by
    cases limitQ with
    | none => simp [effLimit, jsOrInt]
    | some v => simp only [effLimit, jsOrInt]; split <;> omega
  have hlim50 : effLimit limitQ ≤ 50 := by
    cases limitQ with
    | none => simp [effLimit, jsOrInt]
    | some v => simp only [effLimit, jsOrInt]; split <;> omega
  have hpage1 : 1 ≤ effPage pageQ := by
    cases pageQ with
    | none => simp [effPage, jsOrInt]
    | some v => simp only [effPage, jsOrInt]; split <;> omega
  refine ⟨?_, ?_, ?_, ?_, hlim1, hlim50, hpage1, ?_⟩
  · simp only [effPage, jsOrInt]; split <;> omega
  · simp only [effLimit, jsOrInt]; split <;> omega
  · simp [effPage, jsOrInt]
  · simp [effLimit, jsOrInt]
  · have hlen : (sortByCreatedDesc
        (db.addresses.filter (fun a => a.usuario_id == uid))).length =
        countAddresses db uid := by
      rw [sortByCreatedDesc_length]; rfl
    refine ⟨{ userId := u.id
              userName := u.firstName
              addresses := ((sortByCreatedDesc
                  (db.addresses.filter (fun a => a.usuario_id == uid))).drop
                  ((effPage pageQ - 1) * effLimit limitQ)).take (effLimit limitQ)
              pagination :=
                { currentPage := effPage pageQ
                  totalPages :=
                    (countAddresses db uid + effLimit limitQ - 1) / effLimit limitQ
                  totalItems := countAddresses db uid
                  itemsPerPage := effLimit limitQ } }, ?_, rfl, ?_⟩
    · simp [getShippingAddressesByUserId, huser, hlen, hcount]
    · intro m
      have hpos : 0 < effLimit limitQ := hlim1
      have hceil : (countAddresses db uid + effLimit limitQ - 1) / effLimit limitQ =
          countAddresses db uid ⌈/⌉ effLimit limitQ :=
        (Nat.ceilDiv_eq_add_pred_div _ _).symm
      simp only [hceil]
      rw [ceilDiv_le_iff_le_smul hpos, smul_eq_mul]

/-- **C7.** Create and Update accept a postal code iff, after trimming, it
matches `^\d{5}(-\d{4})?$` — i.e. they answer the invalid-postal-code outcome
iff the trimmed value fails the pattern; in particular `"12345"` and
`"12345-6789"` pass while `"1234"`, `"abcde"` and `"12345-67"` fail. -/
theorem postal_code_format_validation
    (db : DB) (now newId : Nat) (b : CreateBody) (u : UserRec)
    (hf1 : truthyNat b.usuario_id = true) (hf2 : truthyStr b.direccion = true)
    (hf3 : truthyStr b.ciudad = true) (hf4 : truthyStr b.estado_provincia = true)
    (hf5 : truthyStr b.codigo_postal = true) (hf6 : truthyStr b.pais = true)
    (huser : findUser db (b.usuario_id.getD 0) = some u)
    (hcnt : countAddresses db (b.usuario_id.getD 0) < 5)
    (db2 : DB) (now2 aid2 caller2 : Nat) (admin2 : Bool) (b2 : UpdateBody)
    (a2 : Address) (u2 : UserRec) (pc2 : String)
    (hfind2 : findAddressWithUser db2 aid2 = some (a2, u2))
    (hauth2 : a2.usuario_id = caller2 ∨ admin2 = true)
    (hpc2 : b2.codigo_postal = some pc2) (hpc2ne : pc2 ≠ "") :
    ((createShippingAddress db now newId b).1 = .invalidPostalCode ↔
      postalCodeRegexTest (jsTrim (b.codigo_postal.getD "")) = false) ∧
    ((updateShippingAddress db2 now2 (some aid2) caller2 admin2 b2).1 =
        .invalidPostalCode ↔ postalCodeRegexTest (jsTrim pc2) = false) ∧
    postalCodeRegexTest "12345" = true ∧
    postalCodeRegexTest "12345-6789" = true ∧
    postalCodeRegexTest "1234" = false ∧
    postalCodeRegexTest "abcde" = false ∧
    postalCodeRegexTest "12345-67" = false := by
  have hnot5 : ¬ countAddresses db (b.usuario_id.getD 0) ≥ 5 := by omega
  have hown2 : (a2.usuario_id != caller2 && !admin2) = false := by
    rcases hauth2 with h | h <;> simp [h]
  refine ⟨?_, ?_, by decide, by decide, by decide, by decide, by decide⟩
  · cases hval : postalCodeRegexTest (jsTrim (b.codigo_postal.getD "")) <;>
      simp [createShippingAddress, hf1, hf2, hf3, hf4, hf5, hf6, huser, hnot5, hval]
  · cases hval : postalCodeRegexTest (jsTrim pc2) <;>
      simp [updateShippingAddress, hfind2, hown2, truthyStr, hpc2, hpc2ne, hval]

/-- **C9.** When UpdateProfile is called with a password, the credential
stored in the updated record — both in the response and in the persisted
user row — is the salted hash produced by the bcrypt collaborator, and
(whenever the collaborator output differs from its input, as a hash does)
never the raw password itself. -/
theorem updateProfile_stores_salted_hash
    (bcryptHash : String → String → String) (salt : String)
    (db : DB) (uid : Nat) (b : ProfileBody) (u : UserRec) (pw : String)
    (huser : findUser db uid = some u)
    (hpw : b.password = some pw) (hne : pw ≠ "")
    (hhash : bcryptHash pw salt ≠ pw) :
    ∃ r, (updateUserProfile bcryptHash salt db uid b).1 = .ok r ∧
      r.hashed_password = bcryptHash pw salt ∧
      r.hashed_password ≠ pw ∧
      (∀ x ∈ (updateUserProfile bcryptHash salt db uid b).2.users,
        x.id = uid → x.hashed_password = bcryptHash pw salt) := by
  have hr : (applyProfile bcryptHash salt u b).hashed_password = bcryptHash pw salt := by
    simp [applyProfile, hpw, hne]
  refine ⟨applyProfile bcryptHash salt u b, ?_, hr, by rw [hr]; exact hhash, ?_⟩
  · simp [updateUserProfile, huser]
  · intro x hx hxid
    simp only [updateUserProfile, huser, List.mem_map] at hx
    obtain ⟨y, hy, hyx⟩ := hx
    by_cases hyid : (y.id == uid) = true
    · rw [if_pos hyid] at hyx
      rw [← hyx]
      exact hr
    · rw [if_neg hyid] at hyx
      rw [← hyx] at hxid
      simp [hxid] at hyid

/-- **C1.** After `SetDefault(addr, user)` for an address `addr` that the
user owns, exactly one address among those owned by the user has
`is_default = true`, and every defaulted address owned by the user is
`addr` itself (primary keys assumed unique, as for a key column). -/
theorem setDefault_unique_default (db : DB) (addrId ownerId : Nat) (a : Address)
    (hmem : a ∈ db.addresses) (hid : a.id = addrId) (hown : a.usuario_id = ownerId)
    (hnodup : (db.addresses.map Address.id).Nodup) :
    (setDefaultAddress db addrId ownerId).addresses.countP
      (fun x => x.usuario_id == ownerId && x.is_default) = 1 ∧
    ∀ x ∈ (setDefaultAddress db addrId ownerId).addresses,
      x.usuario_id = ownerId → x.is_default = true → x.id = addrId := by
  have hinj := List.inj_on_of_nodup_map hnodup
  have hmap : (setDefaultAddress db addrId ownerId).addresses =
      db.addresses.map (fun x => setDefaultFlag addrId (clearDefaults ownerId x)) := by
    simp [setDefaultAddress, List.map_map, Function.comp_def]
  have hgid : ∀ y : Address, (setDefaultFlag addrId (clearDefaults ownerId y)).id = y.id := by
    intro y
    by_cases h1 : y.usuario_id = ownerId <;> by_cases h2 : y.id = addrId <;>
      simp [clearDefaults, setDefaultFlag, h1, h2]
  have hpt : ∀ x ∈ db.addresses,
      ((setDefaultFlag addrId (clearDefaults ownerId x)).usuario_id == ownerId &&
        (setDefaultFlag addrId (clearDefaults ownerId x)).is_default) =
      (x.id == addrId) := by
    intro x hx
    by_cases h1 : x.id = addrId
    · have hxa : x = a := hinj hx hmem (by rw [h1, hid])
      subst hxa
      simp [clearDefaults, setDefaultFlag, hown, h1]
    · have e1 : (x.id == addrId) = false := by simpa using h1
      by_cases h2 : x.usuario_id = ownerId
      · simp [clearDefaults, setDefaultFlag, e1, h2]
      · have e2 : (x.usuario_id == ownerId) = false := by simpa using h2
        simp [clearDefaults, setDefaultFlag, e1, e2]
  constructor
  · rw [hmap, List.countP_map]
    have hcongr : List.countP
        ((fun x => x.usuario_id == ownerId && x.is_default) ∘
          (fun x => setDefaultFlag addrId (clearDefaults ownerId x))) db.addresses =
        List.countP (fun x => x.id == addrId) db.addresses :=
      List.countP_congr (fun x hx => by
        simp only [Function.comp_apply]
        rw [hpt x hx])
    rw [hcongr]
    have hcnt2 : List.countP (fun x => x.id == addrId) db.addresses =
        (db.addresses.map Address.id).count addrId := by
      simp [List.count_eq_countP, List.countP_map, Function.comp_def]
    rw [hcnt2]
    exact List.count_eq_one_of_mem hnodup (hid ▸ List.mem_map_of_mem Address.id hmem)
  · intro x hx h2 h3
    rw [hmap] at hx
    obtain ⟨y, hy, hyx⟩ := List.mem_map.mp hx
    have hb := hpt y hy
    rw [hyx] at hb
    rw [h2, h3] at hb
    simp only [beq_self_eq_true, Bool.true_and, Bool.and_self] at hb
    have hyid : y.id = addrId := by
      have := hb.symm
      simpa using this
    rw [← hyx, hgid y, hyid]

/-! ## Concrete witnesses -/

/-- Concrete instantiation of `bulkDelete_removes_exactly_owned_requested`:
user 1 requests deletion of owned id 10 and unknown id 99. -/
theorem bulkDelete_removes_exactly_owned_requested_witness :
    (bulkDeleteAddresses sDB 1 [10, 99]).1.deletedCount = ([10, 99] : List Nat).length ∧
    (∀ a : Address, a ∈ (bulkDeleteAddresses sDB 1 [10, 99]).2.addresses ↔
      (a ∈ sDB.addresses ∧ ¬(a.id ∈ ([10, 99] : List Nat) ∧ a.usuario_id = 1))) ∧
    (bulkDeleteAddresses sDB 1 [10, 99]).2.users = sDB.users :=
  bulkDelete_removes_exactly_owned_requested sDB 1 [10, 99]

/-- Concrete instantiation of `update_delete_forbidden_unchanged`: caller 2
is not the owner of address 10 and not an admin. -/
theorem update_delete_forbidden_unchanged_witness :
    findAddressWithUser sDB 10 = some (sAddr 10 1 false, sUser) ∧
    (sAddr 10 1 false).usuario_id ≠ 2 ∧
    (updateShippingAddress sDB 77 (some 10) 2 false sUBody = (.forbidden, sDB) ∧
     UpdateOutcome.status (updateShippingAddress sDB 77 (some 10) 2 false sUBody).1 = 403 ∧
     deleteShippingAddress sDB (some 10) 2 false = (.forbidden, sDB) ∧
     DeleteOutcome.status (deleteShippingAddress sDB (some 10) 2 false).1 = 403) :=
  ⟨by decide, by decide,
    update_delete_forbidden_unchanged sDB 77 10 2 false sUBody (sAddr 10 1 false) sUser
      (by decide) (by decide) rfl⟩

/-- Concrete instantiation of `setDefault_unique_default`: user 1 sets
address 10, which they own, as their default. -/
theorem setDefault_unique_default_witness :
    sAddr 10 1 false ∈ sDB.addresses ∧ (sAddr 10 1 false).id = 10 ∧
    (sAddr 10 1 false).usuario_id = 1 ∧ (sDB.addresses.map Address.id).Nodup ∧
    ((setDefaultAddress sDB 10 1).addresses.countP
        (fun x => x.usuario_id == 1 && x.is_default) = 1 ∧
      ∀ x ∈ (setDefaultAddress sDB 10 1).addresses,
        x.usuario_id = 1 → x.is_default = true → x.id = 10) :=
  ⟨by decide, rfl, rfl, by decide,
    setDefault_unique_default sDB 10 1 (sAddr 10 1 false) (by decide) rfl rfl (by decide)⟩

/-- Concrete instantiation of `listByUser_zero_addresses_404`: user 1 exists
and owns no address. -/
theorem listByUser_zero_addresses_404_witness :
    findUser sDB0 1 = some sUser ∧ countAddresses sDB0 1 = 0 ∧
    (getShippingAddressesByUserId sDB0 (some 1) none none = .noAddresses ∧
     ListOutcome.status (getShippingAddressesByUserId sDB0 (some 1) none none) = 404 ∧
     ∀ d : ListData, getShippingAddressesByUserId sDB0 (some 1) none none ≠ .ok d) :=
  ⟨by decide, rfl, listByUser_zero_addresses_404 sDB0 1 sUser none none (by decide) rfl⟩

/-- Concrete instantiation of `listByUser_nonzero_always_200`: user 1 owns
two addresses and page 5 with limit 2 is requested, past the last page. -/
theorem listByUser_nonzero_always_200_witness :
    findUser sDB 1 = some sUser ∧ countAddresses sDB 1 ≠ 0 ∧
    (∃ d, getShippingAddressesByUserId sDB (some 1) (some 5) (some 2) = .ok d ∧
      ListOutcome.status (getShippingAddressesByUserId sDB (some 1) (some 5) (some 2)) = 200 ∧
      d.pagination.totalItems = countAddresses sDB 1 ∧
      d.pagination.itemsPerPage = effLimit (some 2) ∧
      d.pagination.currentPage = effPage (some 5) ∧
      d.pagination.totalPages =
        (countAddresses sDB 1 + effLimit (some 2) - 1) / effLimit (some 2) ∧
      (countAddresses sDB 1 ≤ (effPage (some 5) - 1) * effLimit (some 2) →
        d.addresses = [])) :=
  ⟨by decide, by decide,
    listByUser_nonzero_always_200 sDB 1 sUser (some 5) (some 2) (by decide) (by decide)⟩

/-- Concrete instantiation of `pagination_clamping_and_ceiling`: requested
page −3 and limit 100. -/
theorem pagination_clamping_and_ceiling_witness :
    (-3 : Int) < 1 ∧ (50 : Int) < 100 ∧
    findUser sDB 1 = some sUser ∧ countAddresses sDB 1 ≠ 0 ∧
    (effPage (some (-3)) = 1 ∧ effLimit (some 100) = 50 ∧
    effPage none = 1 ∧ effLimit none = 10 ∧
    1 ≤ effLimit (some 2) ∧ effLimit (some 2) ≤ 50 ∧ 1 ≤ effPage (some 5) ∧
    ∃ d, getShippingAddressesByUserId sDB (some 1) (some 5) (some 2) = .ok d ∧
      d.pagination.totalPages =
        (d.pagination.totalItems + d.pagination.itemsPerPage - 1) /
          d.pagination.itemsPerPage ∧
      ∀ m : Nat, d.pagination.totalPages ≤ m ↔
        d.pagination.totalItems ≤ d.pagination.itemsPerPage * m) :=
  ⟨by decide, by decide, by decide, by decide,
    pagination_clamping_and_ceiling (-3) 100 (by decide) (by decide) sDB 1 sUser
      (some 5) (some 2) (by decide) (by decide)⟩

/-- Concrete instantiation of `updateProfile_stores_salted_hash`: password
`"secret"` hashed with the stand-in collaborator and salt `"s1"`. -/
theorem updateProfile_stores_salted_hash_witness :
    findUser sDB 1 = some sUser ∧ sPBody.password = some "secret" ∧
    "secret" ≠ "" ∧ sHash "secret" "s1" ≠ "secret" ∧
    (∃ r, (updateUserProfile sHash "s1" sDB 1 sPBody).1 = .ok r ∧
      r.hashed_password = sHash "secret" "s1" ∧
      r.hashed_password ≠ "secret" ∧
      (∀ x ∈ (updateUserProfile sHash "s1" sDB 1 sPBody).2.users,
        x.id = 1 → x.hashed_password = sHash "secret" "s1")) :=
  ⟨by decide, rfl, by decide, by decide,
    updateProfile_stores_salted_hash sHash "s1" sDB 1 sPBody sUser "secret"
      (by decide) rfl (by decide) (by decide)⟩

/-- Concrete instantiation of `create_fifth_succeeds_sixth_rejected`: user 1
already owns four addresses and submits a valid create request. -/
theorem create_fifth_succeeds_sixth_rejected_witness :
    truthyNat sBody.usuario_id = true ∧ truthyStr sBody.direccion = true ∧
    truthyStr sBody.ciudad = true ∧ truthyStr sBody.estado_provincia = true ∧
    truthyStr sBody.codigo_postal = true ∧ truthyStr sBody.pais = true ∧
    findUser sDB4 (sBody.usuario_id.getD 0) = some sUser ∧
    postalCodeRegexTest (jsTrim (sBody.codigo_postal.getD "")) = true ∧
    ((countAddresses sDB4 (sBody.usuario_id.getD 0) ≤ 4 →
      ∃ r, createShippingAddress sDB4 99 15 sBody =
          (.created r, { sDB4 with addresses := sDB4.addresses ++ [r] }) ∧
        r.usuario_id = sBody.usuario_id.getD 0 ∧
        CreateOutcome.status (createShippingAddress sDB4 99 15 sBody).1 = 201 ∧
        countAddresses (createShippingAddress sDB4 99 15 sBody).2
            (sBody.usuario_id.getD 0) =
          countAddresses sDB4 (sBody.usuario_id.getD 0) + 1) ∧
    (countAddresses sDB4 (sBody.usuario_id.getD 0) ≥ 5 →
      createShippingAddress sDB4 99 15 sBody =
        (.limitReached (countAddresses sDB4 (sBody.usuario_id.getD 0)), sDB4) ∧
      CreateOutcome.status (createShippingAddress sDB4 99 15 sBody).1 = 400)) :=
  ⟨rfl, rfl, rfl, rfl, rfl, rfl, by decide, by decide,
    create_fifth_succeeds_sixth_rejected sDB4 99 15 sBody sUser
      rfl rfl rfl rfl rfl rfl (by decide) (by decide)⟩

/-- Concrete instantiation of `update_applies_only_supplied_fields`: owner 1
updates address 10 supplying only the street field. -/
theorem update_applies_only_supplied_fields_witness :
    findAddressWithUser sDB 10 = some (sAddr 10 1 false, sUser) ∧
    ((sAddr 10 1 false).usuario_id = 1 ∨ (false = true)) ∧
    (∀ s, sUBody.codigo_postal = some s → s ≠ "" → postalCodeRegexTest (jsTrim s) = true) ∧
    (∃ r, updateShippingAddress sDB 77 (some 10) 1 false sUBody =
        (.ok r, { sDB with addresses := (sDB.addresses.map
          (fun x => if x.id == 10 then r else x)) }) ∧
      r.updated_at = 77 ∧ r.id = (sAddr 10 1 false).id ∧
      r.usuario_id = (sAddr 10 1 false).usuario_id ∧
      r.is_default = (sAddr 10 1 false).is_default ∧
      r.created_at = (sAddr 10 1 false).created_at ∧
      (sUBody.direccion = none → r.direccion = (sAddr 10 1 false).direccion) ∧
      (∀ s, sUBody.direccion = some s → s ≠ "" → r.direccion = jsTrim s) ∧
      (sUBody.ciudad = none → r.ciudad = (sAddr 10 1 false).ciudad) ∧
      (∀ s, sUBody.ciudad = some s → s ≠ "" → r.ciudad = jsTrim s) ∧
      (sUBody.estado_provincia = none →
        r.estado_provincia = (sAddr 10 1 false).estado_provincia) ∧
      (∀ s, sUBody.estado_provincia = some s → s ≠ "" → r.estado_provincia = jsTrim s) ∧
      (sUBody.codigo_postal = none → r.codigo_postal = (sAddr 10 1 false).codigo_postal) ∧
      (∀ s, sUBody.codigo_postal = some s → s ≠ "" → r.codigo_postal = jsTrim s) ∧
      (sUBody.pais = none → r.pais = (sAddr 10 1 false).pais) ∧
      (∀ s, sUBody.pais = some s → s ≠ "" → r.pais = jsTrim s)) :=
  ⟨by decide, Or.inl rfl, by intro s hs hne; simp [sUBody] at hs,
    update_applies_only_supplied_fields sDB 77 10 1 false sUBody (sAddr 10 1 false) sUser
      (by decide) (Or.inl rfl) (by intro s hs hne; simp [sUBody] at hs)⟩

/-- Concrete instantiation of `postal_code_format_validation`: a valid create
request for user 1 and an owner update of address 10 supplying postal code
`"99999"`. -/
theorem postal_code_format_validation_witness :
    truthyNat sBody.usuario_id = true ∧ truthyStr sBody.direccion = true ∧
    truthyStr sBody.ciudad = true ∧ truthyStr sBody.estado_provincia = true ∧
    truthyStr sBody.codigo_postal = true ∧ truthyStr sBody.pais = true ∧
    findUser sDB (sBody.usuario_id.getD 0) = some sUser ∧
    countAddresses sDB (sBody.usuario_id.getD 0) < 5 ∧
    findAddressWithUser sDB 10 = some (sAddr 10 1 false, sUser) ∧
    ((sAddr 10 1 false).usuario_id = 1 ∨ (false = true)) ∧
    sPCBody.codigo_postal = some "99999" ∧ ("99999" : String) ≠ "" ∧
    (((createShippingAddress sDB 99 15 sBody).1 = .invalidPostalCode ↔
      postalCodeRegexTest (jsTrim (sBody.codigo_postal.getD "")) = false) ∧
    ((updateShippingAddress sDB 77 (some 10) 1 false sPCBody).1 =
        .invalidPostalCode ↔ postalCodeRegexTest (jsTrim "99999") = false) ∧
    postalCodeRegexTest "12345" = true ∧
    postalCodeRegexTest "12345-6789" = true ∧
    postalCodeRegexTest "1234" = false ∧
    postalCodeRegexTest "abcde" = false ∧
    postalCodeRegexTest "12345-67" = false) :=
  ⟨rfl, rfl, rfl, rfl, rfl, rfl, by decide, by decide, by decide, Or.inl rfl, rfl,
    by decide,
    postal_code_format_validation sDB 99 15 sBody sUser rfl rfl rfl rfl rfl rfl
      (by decide) (by decide) sDB 77 10 1 false sPCBody (sAddr 10 1 false) sUser
      "99999" (by decide) (Or.inl rfl) rfl (by decide)⟩
